import Mathlib

/-!
The data-source session of go-graphkb (`internal/client/graph_api.go`) and its
projection visitor (`internal/knowledge/query_projection_visitor.go`), as a
shallow embedding of the two source files.

* Pointers to graphs are values of an arbitrary type `G` (the identity of the
  pointed-to object) wrapped in `Option`; `none` is Go's `nil`.
* `time.Time` is an integer count of nanoseconds, `time.Duration` an `int64`
  count of nanoseconds.
* The effects of one call that the session cannot compute by itself (the
  clock, the remote store, the random source) are supplied by an `Env`.
* A call yields the session afterwards, what the call returned (a value, an
  error, or a panic) and the list of outside effects it performed.
-/

namespace GoGraphKB

/-! ## Go values used by the session -/

/-- Go `error` values: either an error of some other package, known by its
message, or the result of `fmt.Errorf` with a `%w` verb, which carries its
formatted message and the error it wraps. -/
inductive GoError where
  | leaf (msg : String)
  | wrapped (msg : String) (inner : GoError)
deriving DecidableEq, Repr

/-- The method `Error()` of an error value. -/
def GoError.Error : GoError → String
  | .leaf m => m
  | .wrapped m _ => m

/-- The function `errors.Unwrap`. -/
def GoError.Unwrap : GoError → Option GoError
  | .leaf _ => none
  | .wrapped _ e => some e

/-- The call `fmt.Errorf(lead + "%w", err)`: the message is the text before
the verb followed by the message of `err`, and the result unwraps to `err`. -/
def Errorf_w (lead : String) (err : GoError) : GoError :=
  .wrapped (lead ++ err.Error) err

/-- Instants (`time.Time`), in nanoseconds. -/
abbrev Time := Int

/-- Durations (`time.Duration`, an `int64`), in nanoseconds. -/
abbrev Duration := Int

/-- The constant `time.Second`. -/
def Second : Duration := 1000000000

/-- The method `t.Before(u)`: strictly earlier. -/
def Before (t u : Time) : Bool := decide (t < u)

/-- The method `t.Add(d)`; it returns a new instant and leaves `t` alone. -/
def timeAdd (t : Time) (d : Duration) : Time := t + d

/-- Two's-complement wrap-around of `int64` arithmetic. -/
def wrapInt64 (x : Int) : Int := (x + 2 ^ 63) % 2 ^ 64 - 2 ^ 63

/-- Whether an integer is a value of `int64`. -/
def isInt64 (x : Int) : Prop := -(2 ^ 63) ≤ x ∧ x < 2 ^ 63

instance (x : Int) : Decidable (isInt64 x) := by
  unfold isInt64; infer_instance

/-- The function `rand.Int63n` of `math/rand`: it panics (`none`) when
`n <= 0`, and otherwise returns a number of the half-open interval `[0, n)`
drawn from the source, here the number `src`. -/
def Int63n (n : Int) (src : Nat) : Option Int :=
  if n ≤ 0 then none else some ((src : Int) % n)

/-- A `float64`, by its IEEE 754 bit pattern. -/
structure Float64 where
  bits : Nat
deriving DecidableEq, Repr

/-- The comparison `x == 0.0` of Go: true of both zeros, whatever the sign
bit, and of nothing else (not of a NaN). -/
def Float64.eqZero (x : Float64) : Bool := (x.bits % 2 ^ 64) % 2 ^ 63 == 0

/-- The sign bit of a `float64`. -/
def Float64.signBit (x : Float64) : Nat := x.bits % 2 ^ 64 / 2 ^ 63

/-- The eleven exponent bits of a `float64`. -/
def Float64.exponent (x : Float64) : Nat := x.bits % 2 ^ 64 / 2 ^ 52 % 2 ^ 11

/-- The fifty-two fraction bits of a `float64`. -/
def Float64.mantissa (x : Float64) : Nat := x.bits % 2 ^ 52

/-- The absolute value of a finite `float64` as IEEE 754 defines it: a
subnormal number is `mantissa * 2^-1074`, any other is
`(2^52 + mantissa) * 2^(exponent - 1075)`. -/
def Float64.magnitude (x : Float64) : ℚ :=
  if x.exponent = 0 then (x.mantissa : ℚ) / 2 ^ 1074
  else ((2 ^ 52 + x.mantissa : Nat) : ℚ) * 2 ^ x.exponent / 2 ^ 1075

/-- The number a `float64` stands for; none for an infinity or a NaN. -/
def Float64.value (x : Float64) : Option ℚ :=
  if x.exponent = 2047 then none
  else some (if x.signBit = 1 then -x.magnitude else x.magnitude)

/-- The constant `1.01` as a `float64`: `0x3FF028F5C28F5C29`. -/
def float_1_01 : Float64 := ⟨4607227454796291113⟩

/-! ## The session -/

/-- The struct `GraphAPIOptions`. -/
structure GraphAPIOptions where
  URL : String
  AuthToken : String
  SkipVerify : Bool
  Parallelization : Int
  ChunkSize : Int
  MaxRetries : Int
  RetryDelay : Duration
  RetryBackoffFactor : Float64
  AntiEntropyDuration : Duration
deriving DecidableEq, Repr

/-- The struct `GraphAPI`; `C` is the type of `*GraphClient`, which is declared
in another file. -/
structure GraphAPI (G C : Type) where
  client : C
  options : GraphAPIOptions
  currentGraph : Option G
  currentGraphStaleAfter : Time
deriving DecidableEq, Repr

/-- The fields of `Transaction` that `CreateTransaction` assigns. The binder
made by `knowledge.NewGraphBinder(transaction.graph)` is known by the graph it
is bound to. The two callbacks are closures over the session pointer; they are
given as the change they make to the session. -/
structure Transaction (G C : Type) where
  graph : Option G
  binder : Option G
  client : C
  parallelization : Int
  chunkSize : Int
  retryCount : Int
  retryDelay : Duration
  retryBackoffFactor : Float64
  onError : GoError → GraphAPI G C → GraphAPI G C
  onSuccess : Option G → GraphAPI G C → GraphAPI G C

/-- What a call returned. -/
inductive Outcome (α : Type) where
  | ok (a : α)
  | err (e : GoError)
  | panicked

/-- The effects of a call outside the session: a read of the remote store, and
a call of `Clean` on a graph (it changes the graph in place; its body is in
another file). -/
inductive Effect (G : Type) where
  | remoteRead
  | clean (g : Option G)
deriving DecidableEq, Repr

/-- What one call of `CreateTransaction` gets from outside: the two readings
of the clock (`time.Now()` in the condition, and after the read), what the
client answers to `ReadCurrentGraph`, the number the random source yields,
and whether `Clean`, whose body is in another file, panics on a nil receiver. -/
structure Env (G C : Type) where
  now1 : Time
  clientRead : C → Except GoError (Option G)
  now2 : Time
  rnd : Nat
  cleanPanicsOnNil : Bool

/-- The session after a call, what the call returned, and its effects. -/
structure Run (G C : Type) where
  gapi : GraphAPI G C
  ret : Outcome (Transaction G C)
  effects : List (Effect G)

variable {G C : Type}

/-- The function `NewGraphAPI`, given the client that `NewGraphClient` builds;
the cache is nil and the deadline is the zero `time.Time`. -/
def NewGraphAPI (client : C) (options : GraphAPIOptions) (zeroTime : Time) : GraphAPI G C :=
  { client := client, options := options, currentGraph := none,
    currentGraphStaleAfter := zeroTime }

/-- The method `ReadCurrentGraph`: the client's read, whatever the cache. -/
def GraphAPI.ReadCurrentGraph (gapi : GraphAPI G C) (env : Env G C) :
    Except GoError (Option G) :=
  env.clientRead gapi.client

/-- The closure `transaction.onError`: the cached graph becomes nil. -/
def transaction_onError (_err : GoError) (gapi : GraphAPI G C) : GraphAPI G C :=
  { gapi with currentGraph := none }

/-- The closure `transaction.onSuccess`: the cached graph becomes `g`. -/
def transaction_onSuccess (g : Option G) (gapi : GraphAPI G C) : GraphAPI G C :=
  { gapi with currentGraph := g }

/-- What lines 76 to 80 compute: nothing when the duration is zero, a panic
of `rand.Int63n`, or the random delta. -/
inductive Jitter where
  | skipped
  | panicked
  | delta (randDelta : Duration)
deriving DecidableEq, Repr

/-- Lines 76 to 78 of `CreateTransaction`: `quarter` is the `int64` quotient
truncated toward zero, and `randDelta` is `rand.Int63n(quarter*2) - quarter`. -/
def jitter (antiEntropyDuration : Duration) (rnd : Nat) : Jitter :=
  if antiEntropyDuration ≠ 0 then
    let quarter := wrapInt64 (Int.tdiv antiEntropyDuration 4)
    match Int63n (wrapInt64 (quarter * 2)) rnd with
    | none => .panicked
    | some r => .delta (wrapInt64 (r - quarter))
  else .skipped

/-- The argument `quarter*2` that line 78 passes to `rand.Int63n`. -/
def int63nArgument (antiEntropyDuration : Duration) : Int :=
  wrapInt64 (wrapInt64 (Int.tdiv antiEntropyDuration 4) * 2)

/-- Lines 83 to 134 of `CreateTransaction`: the defaults, `Clean`, and the
transaction. -/
def buildTransaction (gapi : GraphAPI G C) (env : Env G C) (before : List (Effect G)) :
    Run G C :=
  let parallelization :=
    if gapi.options.Parallelization = 0 then 30 else gapi.options.Parallelization
  let chunkSize := if gapi.options.ChunkSize = 0 then 1000 else gapi.options.ChunkSize
  let maxRetries := if gapi.options.MaxRetries = 0 then 10 else gapi.options.MaxRetries
  let retryDelay :=
    if gapi.options.RetryDelay = 0 then wrapInt64 (5 * Second) else gapi.options.RetryDelay
  let retryBackoff :=
    if gapi.options.RetryBackoffFactor.eqZero then float_1_01
    else gapi.options.RetryBackoffFactor
  if gapi.currentGraph.isNone && env.cleanPanicsOnNil then
    { gapi := gapi, ret := .panicked, effects := before ++ [.clean gapi.currentGraph] }
  else
    { gapi := gapi
      ret := .ok
        { graph := gapi.currentGraph
          binder := gapi.currentGraph
          client := gapi.client
          parallelization := parallelization
          chunkSize := chunkSize
          retryCount := maxRetries
          retryDelay := retryDelay
          retryBackoffFactor := retryBackoff
          onError := transaction_onError
          onSuccess := transaction_onSuccess }
      effects := before ++ [.clean gapi.currentGraph] }

/-- The method `CreateTransaction`. In the branch that reads, the deadline is
assigned the second reading of the clock; the instant that the two `Add` calls
of line 79 compute is the value of an expression statement and is dropped. -/
def GraphAPI.CreateTransaction (gapi : GraphAPI G C) (env : Env G C) : Run G C :=
  if gapi.currentGraph.isNone || Before gapi.currentGraphStaleAfter env.now1 then
    match gapi.ReadCurrentGraph env with
    | .error err =>
      { gapi := gapi, ret := .err (Errorf_w "create transaction: " err),
        effects := [.remoteRead] }
    | .ok g =>
      let gapi1 := { gapi with currentGraph := g }
      let gapi2 := { gapi1 with currentGraphStaleAfter := env.now2 }
      match jitter gapi2.options.AntiEntropyDuration env.rnd with
      | .skipped => buildTransaction gapi2 env [.remoteRead]
      | .panicked => { gapi := gapi2, ret := .panicked, effects := [.remoteRead] }
      | .delta randDelta =>
        let _dropped :=
          timeAdd (timeAdd gapi2.currentGraphStaleAfter gapi2.options.AntiEntropyDuration)
            randDelta
        buildTransaction gapi2 env [.remoteRead]
  else
    buildTransaction gapi env []

/-- Whether an effect is a read of the remote store. -/
def Effect.isRemoteRead : Effect G → Bool
  | .remoteRead => true
  | .clean _ => false

/-- The number of remote reads among the effects of a call. -/
def remoteReads (r : Run G C) : Nat := r.effects.countP Effect.isRemoteRead

/-- The condition of line 67: the cache is nil or the deadline is before now. -/
def mustRead (gapi : GraphAPI G C) (now : Time) : Prop :=
  gapi.currentGraph = none ∨ gapi.currentGraphStaleAfter < now

/-- The session as lines 73 and 75 leave it: the graph read, and the second
reading of the clock as the deadline. -/
def afterRead (gapi : GraphAPI G C) (g : Option G) (now2 : Time) : GraphAPI G C :=
  { gapi with currentGraph := g, currentGraphStaleAfter := now2 }

/-- One call on a session: `CreateTransaction` in some environment, or one of
the two callbacks of a transaction. -/
inductive SessionCall (G C : Type) where
  | createTransaction (env : Env G C)
  | onSuccess (g : Option G)
  | onError (err : GoError)

/-- The session after a sequence of calls, first to last. -/
def GraphAPI.after (s : GraphAPI G C) : List (SessionCall G C) → GraphAPI G C
  | [] => s
  | .createTransaction env :: cs => GraphAPI.after (s.CreateTransaction env).gapi cs
  | .onSuccess g :: cs => GraphAPI.after (transaction_onSuccess g s) cs
  | .onError err :: cs => GraphAPI.after (transaction_onError err s) cs

/-- The clock does not go back along a sequence of calls that starts at `t`. -/
def clockKeepsOn (t : Time) : List (SessionCall G C) → Prop
  | [] => True
  | .createTransaction env :: cs => t ≤ env.now1 ∧ env.now1 ≤ env.now2 ∧ clockKeepsOn env.now2 cs
  | .onSuccess _ :: cs => clockKeepsOn t cs
  | .onError _ :: cs => clockKeepsOn t cs

/-- The last reading of the clock in a sequence of calls that starts at `t`. -/
def lastReading (t : Time) : List (SessionCall G C) → Time
  | [] => t
  | .createTransaction env :: cs => lastReading env.now2 cs
  | .onSuccess _ :: cs => lastReading t cs
  | .onError _ :: cs => lastReading t cs

/-! ## The projection visitor -/

/-- The struct `TypeAndIndex` that `FindVariable` returns; it is declared in
another file. The visitor reads its field `Type`, here `Typ`. -/
structure TypeAndIndex where
  Typ : Int
  Index : Int
deriving DecidableEq, Repr

/-- The constants of the package that the visitor names and other files
declare: the two kinds of variable and the three kinds of expression, taken as
integers, so that the zero value of a kind is `0`. -/
structure Constants where
  NodeType : Int
  RelationType : Int
  NodeExprType : Int
  EdgeExprType : Int
  PropertyExprType : Int
deriving DecidableEq, Repr

/-- The query graph, by its method `FindVariable`; its body is in another file. -/
structure QueryGraph where
  FindVariable : String → Except GoError TypeAndIndex

/-- The struct `ProjectionVisitor`. The embedded `ExpressionVisitorBase` has no
field that the visitor touches. A nil slice is the empty list. -/
structure ProjectionVisitor where
  queryGraph : QueryGraph
  Aggregation : Bool
  TypeAndIndex : TypeAndIndex
  ExpressionType : Int
  funcInvoc : Bool
  etype : Int
  properties : List String

/-- The function `NewProjectionVisitor`: every field but the query graph has
its zero value. -/
def NewProjectionVisitor (queryGraph : QueryGraph) : ProjectionVisitor :=
  { queryGraph := queryGraph, Aggregation := false, TypeAndIndex := ⟨0, 0⟩,
    ExpressionType := 0, funcInvoc := false, etype := 0, properties := [] }

/-- The method `OnEnterFunctionInvocation`: the visitor afterwards and the
error returned (`none` is nil). -/
def ProjectionVisitor.OnEnterFunctionInvocation (pv : ProjectionVisitor) (name : String)
    (_distinct : Bool) : ProjectionVisitor × Option GoError :=
  if name = "COUNT" then
    ({ pv with Aggregation := true, funcInvoc := true }, none)
  else
    (pv, some (.leaf ("Function " ++ name ++ " is not supported")))

/-- The `switch` of `OnVariable`: the kind of expression for a kind of variable. -/
def exprTypeOf (k : Constants) (variableType : Int) : Int :=
  if variableType = k.NodeType then k.NodeExprType
  else if variableType = k.RelationType then k.EdgeExprType
  else k.PropertyExprType

/-- The method `OnVariable`. -/
def ProjectionVisitor.OnVariable (k : Constants) (pv : ProjectionVisitor) (name : String) :
    ProjectionVisitor × Option GoError :=
  match pv.queryGraph.FindVariable name with
  | .error err => (pv, some err)
  | .ok typeAndIndex =>
    ({ pv with etype := exprTypeOf k typeAndIndex.Typ, TypeAndIndex := typeAndIndex }, none)

/-- The method `OnVariablePropertiesPath`. -/
def ProjectionVisitor.OnVariablePropertiesPath (pv : ProjectionVisitor)
    (properties : List String) : ProjectionVisitor × Option GoError :=
  ({ pv with properties := properties }, none)

/-- The method `OnExitPropertyOrLabelsExpression`; it does not use its argument. -/
def ProjectionVisitor.OnExitPropertyOrLabelsExpression (k : Constants)
    (pv : ProjectionVisitor) : ProjectionVisitor × Option GoError :=
  let pv1 :=
    if pv.properties.length > 0 || pv.funcInvoc then
      { pv with ExpressionType := k.PropertyExprType }
    else
      { pv with ExpressionType := pv.etype }
  ({ pv1 with properties := [] }, none)

/-- One callback of the expression parser on the visitor. -/
inductive Callback where
  | enterFunctionInvocation (name : String) (distinct : Bool)
  | onVariable (name : String)
  | variablePropertiesPath (properties : List String)
  | exitPropertyOrLabelsExpression
deriving DecidableEq, Repr

/-- The visitor after one callback, and the error the callback returned. -/
def ProjectionVisitor.call (k : Constants) (pv : ProjectionVisitor) :
    Callback → ProjectionVisitor × Option GoError
  | .enterFunctionInvocation name distinct => pv.OnEnterFunctionInvocation name distinct
  | .onVariable name => pv.OnVariable k name
  | .variablePropertiesPath properties => pv.OnVariablePropertiesPath properties
  | .exitPropertyOrLabelsExpression => pv.OnExitPropertyOrLabelsExpression k

/-- The visitor after a sequence of callbacks, first to last. -/
def ProjectionVisitor.callAll (k : Constants) (pv : ProjectionVisitor) :
    List Callback → ProjectionVisitor
  | [] => pv
  | c :: cs => ProjectionVisitor.callAll k (pv.call k c).1 cs

/-- Whether a callback is `OnEnterFunctionInvocation("COUNT", _)`. -/
def Callback.isCount : Callback → Bool
  | .enterFunctionInvocation name _ => decide (name = "COUNT")
  | _ => false

/-- Whether a callback is an `OnVariable` whose lookup in the query graph
succeeds. -/
def Callback.findsVariable (queryGraph : QueryGraph) : Callback → Bool
  | .onVariable name =>
    match queryGraph.FindVariable name with
    | .error _ => false
    | .ok _ => true
  | _ => false

/-- The properties path that a sequence of callbacks leaves pending, if the
sequence sets it: the path of the last `OnVariablePropertiesPath`, or the empty
path when an `OnExitPropertyOrLabelsExpression` came after it. -/
def pendingPath : List Callback → Option (List String)
  | [] => none
  | c :: cs =>
    match pendingPath cs with
    | some ps => some ps
    | none =>
      match c with
      | .variablePropertiesPath properties => some properties
      | .exitPropertyOrLabelsExpression => some []
      | _ => none

/-- The visitor that `NewProjectionVisitor` builds, after a sequence of
callbacks. -/
def visited (k : Constants) (queryGraph : QueryGraph) (cs : List Callback) :
    ProjectionVisitor :=
  (NewProjectionVisitor queryGraph).callAll k cs

/-- A choice of the constants: the kinds of variable are 10 and 11, the kinds
of expression 20, 21 and 22. -/
def sampleConstants : Constants :=
  { NodeType := 10, RelationType := 11, NodeExprType := 20, EdgeExprType := 21,
    PropertyExprType := 22 }

/-- A query graph that knows a node `n`, a relation `r` and a variable `p` of
a third kind. -/
def smallQueryGraph : QueryGraph :=
  { FindVariable := fun name =>
      if name = "n" then .ok ⟨10, 0⟩
      else if name = "r" then .ok ⟨11, 1⟩
      else if name = "p" then .ok ⟨12, 2⟩
      else .error (.leaf ("Unable to find variable " ++ name)) }

/-! ## Concrete sessions and environments -/

/-- Options with every field at its zero value but the anti-entropy duration. -/
def optionsWith (d : Duration) : GraphAPIOptions :=
  { URL := "", AuthToken := "", SkipVerify := false, Parallelization := 0, ChunkSize := 0,
    MaxRetries := 0, RetryDelay := 0, RetryBackoffFactor := ⟨0⟩, AntiEntropyDuration := d }

/-- A new session: graphs are numbered, the client is the unit value, and the
zero instant is `0`. -/
def freshSession (d : Duration) : GraphAPI Nat Unit :=
  NewGraphAPI () (optionsWith d) 0

/-- A session holding the cached graph `g` and the deadline `deadline`. -/
def cachedSession (d : Duration) (g : Nat) (deadline : Time) : GraphAPI Nat Unit :=
  { client := (), options := optionsWith d, currentGraph := some g,
    currentGraphStaleAfter := deadline }

/-- An environment in which both readings of the clock are `t` and the client
answers `answer`. -/
def envAt (t : Time) (answer : Except GoError (Option Nat)) : Env Nat Unit :=
  { now1 := t, clientRead := fun _ => answer, now2 := t, rnd := 0, cleanPanicsOnNil := true }

/-- Options that set the parallelism, the number of retries and the backoff
factor (to `2.0`) and leave the chunk size and the retry delay at zero. -/
def mixedOptions : GraphAPIOptions :=
  { URL := "", AuthToken := "", SkipVerify := false, Parallelization := 4, ChunkSize := 0,
    MaxRetries := 3, RetryDelay := 0, RetryBackoffFactor := ⟨4611686018427387904⟩,
    AntiEntropyDuration := 0 }

/-- Options whose backoff factor is the negative zero and whose other fields
are zero. -/
def negativeZeroOptions : GraphAPIOptions :=
  { optionsWith 0 with RetryBackoffFactor := ⟨9223372036854775808⟩ }

/-- The error of a remote store that cannot be reached. -/
def unreachable : GoError := .leaf "connection refused"

/-! ## Lemmas on `CreateTransaction` -/

theorem buildTransaction_gapi (gapi : GraphAPI G C) (env : Env G C) (l : List (Effect G)) :
    (buildTransaction gapi env l).gapi = gapi := by
  by_cases h : (gapi.currentGraph.isNone && env.cleanPanicsOnNil) = true <;>
    simp [buildTransaction, h]

theorem buildTransaction_effects (gapi : GraphAPI G C) (env : Env G C) (l : List (Effect G)) :
    (buildTransaction gapi env l).effects = l ++ [.clean gapi.currentGraph] := by
  by_cases h : (gapi.currentGraph.isNone && env.cleanPanicsOnNil) = true <;>
    simp [buildTransaction, h]

theorem remoteReads_buildTransaction (gapi : GraphAPI G C) (env : Env G C)
    (l : List (Effect G)) :
    remoteReads (buildTransaction gapi env l) = l.countP Effect.isRemoteRead := by
  simp [remoteReads, buildTransaction_effects, List.countP_append, Effect.isRemoteRead]

theorem isNone_or_before_iff (gapi : GraphAPI G C) (now : Time) :
    (gapi.currentGraph.isNone || Before gapi.currentGraphStaleAfter now) = true ↔
      mustRead gapi now := by
  simp [mustRead, Before, Option.isNone_iff_eq_none]

theorem createTransaction_of_valid (gapi : GraphAPI G C) (env : Env G C)
    (h : ¬ mustRead gapi env.now1) :
    gapi.CreateTransaction env = buildTransaction gapi env [] := by
  unfold GraphAPI.CreateTransaction
  rw [if_neg]
  rwa [isNone_or_before_iff]

theorem createTransaction_of_read_error (gapi : GraphAPI G C) (env : Env G C)
    (h : mustRead gapi env.now1) (e : GoError) (he : env.clientRead gapi.client = .error e) :
    gapi.CreateTransaction env =
      { gapi := gapi, ret := .err (Errorf_w "create transaction: " e),
        effects := [.remoteRead] } := by
  unfold GraphAPI.CreateTransaction
  rw [if_pos ((isNone_or_before_iff gapi env.now1).2 h)]
  simp [GraphAPI.ReadCurrentGraph, he]

theorem createTransaction_of_read_ok (gapi : GraphAPI G C) (env : Env G C)
    (h : mustRead gapi env.now1) (g : Option G) (hg : env.clientRead gapi.client = .ok g) :
    gapi.CreateTransaction env =
      if jitter gapi.options.AntiEntropyDuration env.rnd = .panicked then
        { gapi := afterRead gapi g env.now2, ret := .panicked, effects := [.remoteRead] }
      else buildTransaction (afterRead gapi g env.now2) env [.remoteRead] := by
  unfold GraphAPI.CreateTransaction
  rw [if_pos ((isNone_or_before_iff gapi env.now1).2 h)]
  simp only [GraphAPI.ReadCurrentGraph, hg, afterRead]
  cases hj : jitter gapi.options.AntiEntropyDuration env.rnd <;> simp

theorem remoteReads_of_mustRead (gapi : GraphAPI G C) (env : Env G C)
    (h : mustRead gapi env.now1) : remoteReads (gapi.CreateTransaction env) = 1 := by
  cases hr : env.clientRead gapi.client with
  | error e =>
    rw [createTransaction_of_read_error gapi env h e hr]
    simp [remoteReads, Effect.isRemoteRead]
  | ok g =>
    rw [createTransaction_of_read_ok gapi env h g hr]
    split
    · simp [remoteReads, Effect.isRemoteRead]
    · simp [remoteReads_buildTransaction, Effect.isRemoteRead]

theorem remoteReads_of_valid (gapi : GraphAPI G C) (env : Env G C)
    (h : ¬ mustRead gapi env.now1) : remoteReads (gapi.CreateTransaction env) = 0 := by
  rw [createTransaction_of_valid gapi env h]
  simp [remoteReads_buildTransaction]

theorem buildTransaction_ret_some (gapi : GraphAPI G C) (env : Env G C) (l : List (Effect G))
    (g : G) (hg : gapi.currentGraph = some g) :
    ∃ tx, (buildTransaction gapi env l).ret = .ok tx ∧ tx.graph = some g ∧
      tx.binder = some g ∧ tx.client = gapi.client := by
  simp [buildTransaction, hg]

theorem buildTransaction_ret_ok (gapi : GraphAPI G C) (env : Env G C) (l : List (Effect G))
    (tx : Transaction G C) (h : (buildTransaction gapi env l).ret = .ok tx) :
    tx.graph = gapi.currentGraph ∧ tx.onError = transaction_onError ∧
      tx.onSuccess = transaction_onSuccess := by
  by_cases hc : (gapi.currentGraph.isNone && env.cleanPanicsOnNil) = true
  · simp [buildTransaction, hc] at h
  · simp only [buildTransaction, hc] at h
    simp only [Bool.false_eq_true, if_false, Outcome.ok.injEq] at h
    subst h
    exact ⟨rfl, rfl, rfl⟩

/-- The callbacks of every transaction that `CreateTransaction` returns are the
two closures of lines 121 to 132. -/
theorem createTransaction_callbacks (gapi : GraphAPI G C) (env : Env G C)
    (tx : Transaction G C) (h : (gapi.CreateTransaction env).ret = .ok tx) :
    tx.onError = transaction_onError ∧ tx.onSuccess = transaction_onSuccess := by
  by_cases hm : mustRead gapi env.now1
  · cases hr : env.clientRead gapi.client with
    | error e =>
      rw [createTransaction_of_read_error gapi env hm e hr] at h
      simp at h
    | ok g =>
      rw [createTransaction_of_read_ok gapi env hm g hr] at h
      split at h
      · simp at h
      · exact (buildTransaction_ret_ok _ _ _ _ h).2
  · rw [createTransaction_of_valid gapi env hm] at h
    exact (buildTransaction_ret_ok _ _ _ _ h).2

theorem createTransaction_gapi_of_read_ok (gapi : GraphAPI G C) (env : Env G C)
    (h : mustRead gapi env.now1) (g : Option G) (hg : env.clientRead gapi.client = .ok g) :
    (gapi.CreateTransaction env).gapi = afterRead gapi g env.now2 := by
  rw [createTransaction_of_read_ok gapi env h g hg]
  split
  · rfl
  · exact buildTransaction_gapi _ _ _

/-- After a call that returned a transaction, the stored deadline is the
second reading of the clock when the call read the remote graph, and the
deadline stored before otherwise; the options and the client are kept. -/
theorem createTransaction_deadline (gapi : GraphAPI G C) (env : Env G C)
    (tx : Transaction G C) (h : (gapi.CreateTransaction env).ret = .ok tx) :
    (mustRead gapi env.now1 →
      (gapi.CreateTransaction env).gapi.currentGraphStaleAfter = env.now2) ∧
    (¬ mustRead gapi env.now1 → (gapi.CreateTransaction env).gapi = gapi) := by
  constructor
  · intro hm
    cases hr : env.clientRead gapi.client with
    | error e =>
      rw [createTransaction_of_read_error gapi env hm e hr] at h
      simp at h
    | ok g =>
      rw [createTransaction_gapi_of_read_ok gapi env hm g hr]
      rfl
  · intro hm
    rw [createTransaction_of_valid gapi env hm]
    exact buildTransaction_gapi _ _ _

theorem foldl_onSuccess_deadline (gs : List (Option G)) (s : GraphAPI G C) :
    (gs.foldl (fun s g => transaction_onSuccess g s) s).currentGraphStaleAfter
      = s.currentGraphStaleAfter := by
  induction gs generalizing s with
  | nil => rfl
  | cons g gs ih => simp only [List.foldl_cons]; rw [ih]; rfl

theorem buildTransaction_policy (s : GraphAPI G C) (env : Env G C) (l : List (Effect G))
    (tx : Transaction G C) (hb : (buildTransaction s env l).ret = .ok tx) :
    tx.parallelization =
      (if s.options.Parallelization = 0 then 30 else s.options.Parallelization) ∧
    tx.chunkSize = (if s.options.ChunkSize = 0 then 1000 else s.options.ChunkSize) ∧
    tx.retryCount = (if s.options.MaxRetries = 0 then 10 else s.options.MaxRetries) ∧
    tx.retryDelay = (if s.options.RetryDelay = 0 then 5000000000 else s.options.RetryDelay) ∧
    tx.retryBackoffFactor =
      (if s.options.RetryBackoffFactor.eqZero then float_1_01
        else s.options.RetryBackoffFactor) := by
  have hdelay : wrapInt64 (5 * Second) = 5000000000 := by decide
  by_cases hc : (s.currentGraph.isNone && env.cleanPanicsOnNil) = true
  · simp [buildTransaction, hc] at hb
  · simp only [buildTransaction, hc] at hb
    simp only [Bool.false_eq_true, if_false, Outcome.ok.injEq] at hb
    subst hb
    simp [hdelay]

/-- The policy fields of a returned transaction, each from its own option. -/
theorem createTransaction_policy (gapi : GraphAPI G C) (env : Env G C)
    (tx : Transaction G C) (h : (gapi.CreateTransaction env).ret = .ok tx) :
    tx.parallelization =
      (if gapi.options.Parallelization = 0 then 30 else gapi.options.Parallelization) ∧
    tx.chunkSize = (if gapi.options.ChunkSize = 0 then 1000 else gapi.options.ChunkSize) ∧
    tx.retryCount = (if gapi.options.MaxRetries = 0 then 10 else gapi.options.MaxRetries) ∧
    tx.retryDelay =
      (if gapi.options.RetryDelay = 0 then 5000000000 else gapi.options.RetryDelay) ∧
    tx.retryBackoffFactor =
      (if gapi.options.RetryBackoffFactor.eqZero then float_1_01
        else gapi.options.RetryBackoffFactor) := by
  by_cases hm : mustRead gapi env.now1
  · cases hr : env.clientRead gapi.client with
    | error e =>
      rw [createTransaction_of_read_error gapi env hm e hr] at h
      simp at h
    | ok g =>
      rw [createTransaction_of_read_ok gapi env hm g hr] at h
      split at h
      · simp at h
      · exact buildTransaction_policy (afterRead gapi g env.now2) env _ tx h
  · rw [createTransaction_of_valid gapi env hm] at h
    exact buildTransaction_policy gapi env _ tx h

theorem wrapInt64_of_isInt64 (x : Int) (h : isInt64 x) : wrapInt64 x = x := by
  unfold isInt64 at h
  unfold wrapInt64
  omega

theorem tdiv_four_of_nonneg (d : Int) (h : 0 ≤ d) : Int.tdiv d 4 = d / 4 :=
  Int.tdiv_eq_ediv h (by decide)

theorem tdiv_four_of_neg (d : Int) (h : d < 0) : Int.tdiv d 4 = -((-d) / 4) := by
  have h1 : Int.tdiv (-(-d)) 4 = -(Int.tdiv (-d) 4) := Int.neg_tdiv (-d) 4
  rw [Int.neg_neg] at h1
  rw [h1, Int.tdiv_eq_ediv (by omega) (by decide)]

theorem int63nArgument_of_ge_four (d : Int) (h4 : 4 ≤ d) (hd : isInt64 d) :
    int63nArgument d = 2 * (d / 4) := by
  unfold isInt64 at hd
  unfold int63nArgument
  rw [tdiv_four_of_nonneg d (by omega),
    wrapInt64_of_isInt64 (d / 4) (by unfold isInt64; omega),
    wrapInt64_of_isInt64 (d / 4 * 2) (by unfold isInt64; omega)]
  omega

theorem int63nArgument_nonpos (d : Int) (hd : isInt64 d) (h : d < 4) :
    int63nArgument d ≤ 0 := by
  unfold isInt64 at hd
  unfold int63nArgument
  by_cases h0 : 0 ≤ d
  · rw [tdiv_four_of_nonneg d h0,
      wrapInt64_of_isInt64 (d / 4) (by unfold isInt64; omega),
      wrapInt64_of_isInt64 (d / 4 * 2) (by unfold isInt64; omega)]
    omega
  · rw [tdiv_four_of_neg d (by omega),
      wrapInt64_of_isInt64 (-(-d / 4)) (by unfold isInt64; omega),
      wrapInt64_of_isInt64 (-(-d / 4) * 2) (by unfold isInt64; omega)]
    omega

theorem jitter_eq (d : Int) (rnd : Nat) (h : d ≠ 0) :
    jitter d rnd =
      match Int63n (int63nArgument d) rnd with
      | none => .panicked
      | some r => .delta (wrapInt64 (r - wrapInt64 (Int.tdiv d 4))) := by
  simp [jitter, int63nArgument, h]

theorem jitter_of_ge_four (d : Int) (rnd : Nat) (h4 : 4 ≤ d) (hd : isInt64 d) :
    jitter d rnd = .delta ((rnd : Int) % (2 * (d / 4)) - d / 4) := by
  have hq : 0 < 2 * (d / 4) := by omega
  have h1 := Int.emod_nonneg (rnd : Int) (ne_of_gt hq)
  have h2 := Int.emod_lt_of_pos (rnd : Int) hq
  rw [jitter_eq d rnd (by omega), int63nArgument_of_ge_four d h4 hd]
  unfold isInt64 at hd
  have hr : Int63n (2 * (d / 4)) rnd = some ((rnd : Int) % (2 * (d / 4))) := by
    simp [Int63n, not_le.2 hq]
  rw [hr]
  simp only
  rw [tdiv_four_of_nonneg d (by omega),
    wrapInt64_of_isInt64 (d / 4) (by unfold isInt64; omega),
    wrapInt64_of_isInt64 _ (by unfold isInt64; omega)]

theorem jitter_of_lt_four (d : Int) (rnd : Nat) (h0 : d ≠ 0) (h4 : d < 4) (hd : isInt64 d) :
    jitter d rnd = .panicked := by
  rw [jitter_eq d rnd h0]
  simp [Int63n, int63nArgument_nonpos d hd h4]

theorem createTransaction_deadline_le (gapi : GraphAPI G C) (env : Env G C) (t : Time)
    (hs : gapi.currentGraphStaleAfter ≤ t) (h1 : t ≤ env.now1) (h2 : env.now1 ≤ env.now2) :
    (gapi.CreateTransaction env).gapi.currentGraphStaleAfter ≤ env.now2 := by
  have hle : gapi.currentGraphStaleAfter ≤ env.now2 := le_trans hs (le_trans h1 h2)
  by_cases hm : mustRead gapi env.now1
  · cases hr : env.clientRead gapi.client with
    | error e =>
      rw [createTransaction_of_read_error gapi env hm e hr]
      exact hle
    | ok g =>
      rw [createTransaction_gapi_of_read_ok gapi env hm g hr]
      exact le_refl _
  · rw [createTransaction_of_valid gapi env hm, buildTransaction_gapi]
    exact hle

/-- Along every sequence of calls during which the clock does not go back, the
stored deadline is never after the last reading of the clock: so it is on
every session since `NewGraphAPI`, whose deadline is the zero instant. -/
theorem deadline_never_in_the_future (cs : List (SessionCall G C)) (s : GraphAPI G C)
    (t : Time) (hs : s.currentGraphStaleAfter ≤ t) (hc : clockKeepsOn t cs) :
    (s.after cs).currentGraphStaleAfter ≤ lastReading t cs := by
  induction cs generalizing s t with
  | nil => exact hs
  | cons c cs ih =>
    cases c with
    | createTransaction env =>
      obtain ⟨h1, h2, h3⟩ := hc
      exact ih _ _ (createTransaction_deadline_le s env t hs h1 h2) h3
    | onSuccess g => exact ih _ _ hs hc
    | onError err => exact ih _ _ hs hc

theorem magnitude_eq_zero_iff (x : Float64) :
    x.magnitude = 0 ↔ x.exponent = 0 ∧ x.mantissa = 0 := by
  unfold Float64.magnitude
  by_cases he : x.exponent = 0
  · simp [he]
  · simp only [he, if_false, false_and, iff_false]
    have h1 : (0 : ℚ) < ((2 ^ 52 + x.mantissa : Nat) : ℚ) := by
      have : 0 < 2 ^ 52 + x.mantissa := by positivity
      exact_mod_cast this
    have h2 : (0 : ℚ) < 2 ^ x.exponent := by positivity
    have h3 : (0 : ℚ) < 2 ^ 1075 := by positivity
    exact ne_of_gt (div_pos (mul_pos h1 h2) h3)

theorem zero_bits_iff (x : Float64) :
    ((x.bits % 2 ^ 64) % 2 ^ 63 = 0) ↔ (x.exponent = 0 ∧ x.mantissa = 0) := by
  unfold Float64.exponent Float64.mantissa
  omega

/-- The test `x == 0.0` holds exactly of the `float64` values that stand for
the number zero. -/
theorem eqZero_iff_value (x : Float64) : x.eqZero = true ↔ x.value = some 0 := by
  have hz : x.eqZero = true ↔ (x.exponent = 0 ∧ x.mantissa = 0) := by
    rw [← zero_bits_iff]
    simp [Float64.eqZero]
  rw [hz, ← magnitude_eq_zero_iff]
  unfold Float64.value
  by_cases he : x.exponent = 2047
  · have : x.magnitude ≠ 0 := by
      rw [Ne, magnitude_eq_zero_iff]
      omega
    simp [he, this]
  · by_cases hs : x.signBit = 1 <;> simp [he, hs]

theorem value_of_default_backoff :
    Float64.value ⟨4607227454796291113⟩ = some (4548635623644201 / 4503599627370496) := by
  have he : Float64.exponent ⟨4607227454796291113⟩ = 1023 := by decide
  have hm : Float64.mantissa ⟨4607227454796291113⟩ = 45035996273705 := by decide
  have hs : Float64.signBit ⟨4607227454796291113⟩ = 0 := by decide
  simp only [Float64.value, Float64.magnitude, he, hm, hs]
  norm_num

theorem default_backoff_nearest :
    |(4548635623644201 / 4503599627370496 : ℚ) - 101 / 100| ≤ 1 / 2 ^ 53 := by
  rw [abs_le]
  constructor <;> norm_num

/-! ## The claims on the session -/

/-- C1. `CreateTransaction` reads the remote graph exactly when the cached graph
is nil or the stored deadline is strictly before now, and then it reads once;
when the cache holds a graph and the deadline is not before now it reads
nothing, leaves that graph in the cache and hands it to the transaction it
returns. -/
theorem createTransaction_reads_iff_absent_or_stale (gapi : GraphAPI G C) (env : Env G C) :
    (remoteReads (gapi.CreateTransaction env) = 1 ↔
        (gapi.currentGraph = none ∨ gapi.currentGraphStaleAfter < env.now1)) ∧
    (remoteReads (gapi.CreateTransaction env) = 0 ↔
        ¬ (gapi.currentGraph = none ∨ gapi.currentGraphStaleAfter < env.now1)) ∧
    (∀ g : G, gapi.currentGraph = some g → ¬ gapi.currentGraphStaleAfter < env.now1 →
        (gapi.CreateTransaction env).effects = [.clean (some g)] ∧
        (gapi.CreateTransaction env).gapi = gapi ∧
        ∃ tx, (gapi.CreateTransaction env).ret = .ok tx ∧ tx.graph = some g) := by
  refine ⟨?_, ?_, ?_⟩
  · by_cases hm : mustRead gapi env.now1
    · exact ⟨fun _ => hm, fun _ => remoteReads_of_mustRead gapi env hm⟩
    · refine ⟨fun h => ?_, fun h => absurd h hm⟩
      rw [remoteReads_of_valid gapi env hm] at h
      exact absurd h (by decide)
  · by_cases hm : mustRead gapi env.now1
    · refine ⟨fun h => ?_, fun h => absurd hm h⟩
      rw [remoteReads_of_mustRead gapi env hm] at h
      exact absurd h (by decide)
    · exact ⟨fun _ => hm, fun _ => remoteReads_of_valid gapi env hm⟩
  · intro g hg hd
    have hm : ¬ mustRead gapi env.now1 := by
      simp [mustRead, hg, hd]
    rw [createTransaction_of_valid gapi env hm]
    refine ⟨by simp [buildTransaction_effects, hg], buildTransaction_gapi _ _ _, ?_⟩
    obtain ⟨tx, h1, h2, -⟩ := buildTransaction_ret_some gapi env [] g hg
    exact ⟨tx, h1, h2⟩

/-- C1 at concrete sessions: a cache that is still valid is handed out without
a read, and a new session reads once. -/
theorem createTransaction_reads_iff_absent_or_stale_witness :
    (cachedSession 0 7 50).currentGraph = some 7 ∧
    ¬ (cachedSession 0 7 50).currentGraphStaleAfter < (envAt 50 (.ok (some 9))).now1 ∧
    ((cachedSession 0 7 50).CreateTransaction (envAt 50 (.ok (some 9)))).effects
      = [.clean (some 7)] ∧
    remoteReads ((freshSession 0).CreateTransaction (envAt 50 (.ok (some 9)))) = 1 :=
  ⟨rfl, by decide,
    ((createTransaction_reads_iff_absent_or_stale (cachedSession 0 7 50)
      (envAt 50 (.ok (some 9)))).2.2 7 rfl (by decide)).1,
    (createTransaction_reads_iff_absent_or_stale (freshSession 0)
      (envAt 50 (.ok (some 9)))).1.2 (Or.inl rfl)⟩

/-- C2. Once the `onError` callback of a transaction handed out by
`CreateTransaction` has run, with any error and on any session state, the
cached graph is nil, and the next `CreateTransaction` reads the remote graph
whatever the clock shows and whatever deadline is stored. -/
theorem onError_forces_remote_read (gapi : GraphAPI G C) (env : Env G C)
    (tx : Transaction G C) (h : (gapi.CreateTransaction env).ret = .ok tx)
    (err : GoError) (s : GraphAPI G C) (deadline : Time) (env2 : Env G C) :
    (tx.onError err s).currentGraph = none ∧
    remoteReads
      (({ tx.onError err s with currentGraphStaleAfter := deadline }).CreateTransaction env2)
        = 1 := by
  rw [(createTransaction_callbacks gapi env tx h).1]
  refine ⟨rfl, ?_⟩
  apply remoteReads_of_mustRead
  exact Or.inl rfl

/-- C5, amended. When `CreateTransaction` must read and the read fails with
`e`, it returns no transaction but the error whose message is
"create transaction: " followed by the message of `e` and which unwraps to
`e`; it has read once and the session is as it was, so the cache is nil
afterwards exactly when it was nil before. -/
theorem createTransaction_read_failure (gapi : GraphAPI G C) (env : Env G C) (e : GoError)
    (hm : gapi.currentGraph = none ∨ gapi.currentGraphStaleAfter < env.now1)
    (he : env.clientRead gapi.client = .error e) :
    (∃ w, (gapi.CreateTransaction env).ret = .err w ∧
      w.Error = "create transaction: " ++ e.Error ∧ w.Unwrap = some e) ∧
    (gapi.CreateTransaction env).gapi = gapi ∧
    ((gapi.CreateTransaction env).gapi.currentGraph = none ↔ gapi.currentGraph = none) ∧
    remoteReads (gapi.CreateTransaction env) = 1 := by
  rw [createTransaction_of_read_error gapi env hm e he]
  refine ⟨⟨_, rfl, rfl, rfl⟩, rfl, Iff.rfl, ?_⟩
  simp [remoteReads, Effect.isRemoteRead]

/-- C8. The `onSuccess` callback of a transaction handed out by
`CreateTransaction`, called with `g` on any session state, leaves `g` itself in
the cache and keeps the deadline, the options and the client. -/
theorem onSuccess_replaces_cache_only (gapi : GraphAPI G C) (env : Env G C)
    (tx : Transaction G C) (h : (gapi.CreateTransaction env).ret = .ok tx)
    (s : GraphAPI G C) (g : Option G) :
    (tx.onSuccess g s).currentGraph = g ∧
    (tx.onSuccess g s).currentGraphStaleAfter = s.currentGraphStaleAfter ∧
    (tx.onSuccess g s).options = s.options ∧
    (tx.onSuccess g s).client = s.client := by
  rw [(createTransaction_callbacks gapi env tx h).2]
  exact ⟨rfl, rfl, rfl, rfl⟩

/-- C2 at a concrete session: the callback of the transaction of a new
session, run on a session whose cache is valid for a long time yet. -/
theorem onError_forces_remote_read_witness :
    ∃ tx : Transaction Nat Unit,
      ((freshSession 0).CreateTransaction (envAt 5 (.ok (some 1)))).ret = .ok tx ∧
      (tx.onError unreachable (cachedSession 0 1 1000)).currentGraph = none ∧
      remoteReads
        (({ tx.onError unreachable (cachedSession 0 1 1000) with
            currentGraphStaleAfter := 1000 }).CreateTransaction (envAt 6 (.ok (some 2)))) = 1 :=
  ⟨_, rfl, onError_forces_remote_read (freshSession 0) (envAt 5 (.ok (some 1))) _ rfl
    unreachable (cachedSession 0 1 1000) 1000 (envAt 6 (.ok (some 2)))⟩

/-- C5 fails as stated: a session whose cached graph 7 went stale at instant 10
is asked for a transaction at instant 50, the read fails, and graph 7 is still
in the cache afterwards. -/
theorem read_failure_keeps_stale_cache :
    ((cachedSession 0 7 10).currentGraph = none ∨
      (cachedSession 0 7 10).currentGraphStaleAfter < (envAt 50 (.error unreachable)).now1) ∧
    (envAt 50 (.error unreachable)).clientRead (cachedSession 0 7 10).client
      = .error unreachable ∧
    ((cachedSession 0 7 10).CreateTransaction (envAt 50 (.error unreachable))).gapi.currentGraph
      = some 7 ∧
    ((cachedSession 0 7 10).CreateTransaction (envAt 50 (.error unreachable))).gapi.currentGraph
      ≠ none := by
  refine ⟨Or.inr (by decide), rfl, rfl, ?_⟩
  intro h
  cases h

/-- C5, amended, at a new session whose first read fails. -/
theorem createTransaction_read_failure_witness :
    ((freshSession 0).currentGraph = none ∨
      (freshSession 0).currentGraphStaleAfter < (envAt 50 (.error unreachable)).now1) ∧
    (∃ w, ((freshSession 0).CreateTransaction (envAt 50 (.error unreachable))).ret = .err w ∧
      w.Error = "create transaction: " ++ unreachable.Error ∧ w.Unwrap = some unreachable) ∧
    ((freshSession 0).CreateTransaction (envAt 50 (.error unreachable))).gapi.currentGraph
      = none :=
  ⟨Or.inl rfl,
    (createTransaction_read_failure (freshSession 0) (envAt 50 (.error unreachable))
      unreachable (Or.inl rfl) rfl).1,
    (createTransaction_read_failure (freshSession 0) (envAt 50 (.error unreachable))
      unreachable (Or.inl rfl) rfl).2.2.1.2 rfl⟩

/-- C8 at a concrete session: graph 3 replaces graph 1, the deadline 1000 stays. -/
theorem onSuccess_replaces_cache_only_witness :
    ∃ tx : Transaction Nat Unit,
      ((freshSession 0).CreateTransaction (envAt 5 (.ok (some 1)))).ret = .ok tx ∧
      (tx.onSuccess (some 3) (cachedSession 0 1 1000)).currentGraph = some 3 ∧
      (tx.onSuccess (some 3) (cachedSession 0 1 1000)).currentGraphStaleAfter = 1000 :=
  ⟨_, rfl,
    (onSuccess_replaces_cache_only (freshSession 0) (envAt 5 (.ok (some 1))) _ rfl
      (cachedSession 0 1 1000) (some 3)).1,
    (onSuccess_replaces_cache_only (freshSession 0) (envAt 5 (.ok (some 1))) _ rfl
      (cachedSession 0 1 1000) (some 3)).2.1⟩

/-- C3, what the code does instead. A call that read the remote graph and
returned a transaction has stored the instant of its second clock reading as
the deadline, whatever the anti-entropy duration; so after `onSuccess(g)` the
next `CreateTransaction` at any later instant reads the remote graph again,
also inside the anti-entropy window. -/
theorem anti_entropy_window_not_kept (gapi : GraphAPI G C) (env : Env G C)
    (tx : Transaction G C)
    (hread : gapi.currentGraph = none ∨ gapi.currentGraphStaleAfter < env.now1)
    (hok : (gapi.CreateTransaction env).ret = .ok tx)
    (g : G) (env2 : Env G C) (hlater : env.now2 < env2.now1) :
    (gapi.CreateTransaction env).gapi.currentGraphStaleAfter = env.now2 ∧
    remoteReads
      ((tx.onSuccess (some g) (gapi.CreateTransaction env).gapi).CreateTransaction env2) = 1 := by
  have hd := (createTransaction_deadline gapi env tx hok).1 hread
  refine ⟨hd, ?_⟩
  apply remoteReads_of_mustRead
  rw [(createTransaction_callbacks gapi env tx hok).2]
  right
  show (gapi.CreateTransaction env).gapi.currentGraphStaleAfter < env2.now1
  rw [hd]
  exact hlater

/-- C3 at the failing input: an anti-entropy duration of four seconds, a first
transaction at instant 0, `onSuccess(2)`, and a second transaction one
nanosecond later, well inside the window, which reads the remote graph. -/
theorem anti_entropy_window_not_kept_witness :
    (0 : Int) < 4000000000 ∧ (0 : Int) ≤ 1 ∧ (1 : Int) ≤ 0 + 4000000000 - 4000000000 / 4 ∧
    ∃ tx : Transaction Nat Unit,
      ((freshSession 4000000000).CreateTransaction (envAt 0 (.ok (some 1)))).ret = .ok tx ∧
      remoteReads
        ((tx.onSuccess (some 2)
          ((freshSession 4000000000).CreateTransaction (envAt 0 (.ok (some 1)))).gapi
          ).CreateTransaction (envAt 1 (.ok (some 3)))) = 1 :=
  ⟨by decide, by decide, by decide, _, rfl,
    (anti_entropy_window_not_kept (freshSession 4000000000) (envAt 0 (.ok (some 1))) _
      (Or.inl rfl) rfl 2 (envAt 1 (.ok (some 3))) (by decide)).2⟩

/-- C4, what the code does instead. A `CreateTransaction` that read the remote
graph and returned a transaction, with a non-zero anti-entropy duration `d` of
type `int64`, has `d >= 4` and has stored the reading `now` of the clock of
line 75 itself as the deadline: the stored deadline is `now + d + jitter` for
no jitter between `-d/4` and `d/4`, since the instant that line 79 computes is
dropped. -/
theorem fresh_read_deadline_without_jitter (gapi : GraphAPI G C) (env : Env G C)
    (tx : Transaction G C)
    (hread : gapi.currentGraph = none ∨ gapi.currentGraphStaleAfter < env.now1)
    (hok : (gapi.CreateTransaction env).ret = .ok tx)
    (hd : gapi.options.AntiEntropyDuration ≠ 0)
    (hint : isInt64 gapi.options.AntiEntropyDuration) :
    4 ≤ gapi.options.AntiEntropyDuration ∧
    (gapi.CreateTransaction env).gapi.currentGraphStaleAfter = env.now2 ∧
    ¬ ∃ j : Int, -(gapi.options.AntiEntropyDuration / 4) ≤ j ∧
      j ≤ gapi.options.AntiEntropyDuration / 4 ∧
      (gapi.CreateTransaction env).gapi.currentGraphStaleAfter
        = env.now2 + gapi.options.AntiEntropyDuration + j := by
  have hstored := (createTransaction_deadline gapi env tx hok).1 hread
  have h4 : (4 : Int) ≤ gapi.options.AntiEntropyDuration := by
    by_contra hlt
    have hp := jitter_of_lt_four gapi.options.AntiEntropyDuration env.rnd hd
      (lt_of_not_ge hlt) hint
    cases hr : env.clientRead gapi.client with
    | error e =>
      rw [createTransaction_of_read_error gapi env hread e hr] at hok
      exact Outcome.noConfusion hok
    | ok g =>
      rw [createTransaction_of_read_ok gapi env hread g hr, if_pos hp] at hok
      exact Outcome.noConfusion hok
  refine ⟨h4, hstored, ?_⟩
  rintro ⟨j, h1, _, h3⟩
  rw [hstored] at h3
  have h5 : @Eq Int env.now2 (env.now2 + gapi.options.AntiEntropyDuration + j) := h3
  have h6 : @LE.le Int _ 4 gapi.options.AntiEntropyDuration := h4
  have h7 : @LE.le Int _ (-(gapi.options.AntiEntropyDuration / 4)) j := h1
  omega

/-- C4 at the failing input: an anti-entropy duration of 8 ns, a new session,
a first transaction at instant 50. The deadline stored is 50, and 50 is
`50 + 8 + jitter` for no jitter between -2 and 2. -/
theorem fresh_read_deadline_without_jitter_witness :
    ∃ tx : Transaction Nat Unit,
      ((freshSession 8).CreateTransaction (envAt 50 (.ok (some 7)))).ret = .ok tx ∧
      ((freshSession 8).CreateTransaction (envAt 50 (.ok (some 7)))).gapi.currentGraphStaleAfter
        = 50 ∧
      ¬ ∃ j : Int, -((8 : Int) / 4) ≤ j ∧ j ≤ (8 : Int) / 4 ∧
        ((freshSession 8).CreateTransaction
          (envAt 50 (.ok (some 7)))).gapi.currentGraphStaleAfter = 50 + 8 + j :=
  ⟨_, rfl,
    (fresh_read_deadline_without_jitter (freshSession 8) (envAt 50 (.ok (some 7))) _
      (Or.inl rfl) rfl (by decide) (by decide)).2.1,
    (fresh_read_deadline_without_jitter (freshSession 8) (envAt 50 (.ok (some 7))) _
      (Or.inl rfl) rfl (by decide) (by decide)).2.2⟩

/-- C6 fails as stated: with an anti-entropy duration of zero, a new session
creates a transaction at instant 5, and a second `CreateTransaction` at the same
instant 5 does not read the remote graph. -/
theorem zero_duration_same_instant_no_read :
    (freshSession 0).options.AntiEntropyDuration = 0 ∧
    (∃ tx, ((freshSession 0).CreateTransaction (envAt 5 (.ok (some 7)))).ret = .ok tx) ∧
    (envAt 5 (.ok (some 9))).now1 ≥ (envAt 5 (.ok (some 7))).now1 ∧
    remoteReads
      (((freshSession 0).CreateTransaction (envAt 5 (.ok (some 7)))).gapi.CreateTransaction
        (envAt 5 (.ok (some 9)))) = 0 :=
  ⟨rfl, ⟨_, rfl⟩, by decide, rfl⟩

/-- C6, amended. With an anti-entropy duration of zero, on a session whose
stored deadline is not in the future, after a `CreateTransaction` that returned
a transaction, with clock readings `now1 <= now2`, and after any number of
`onSuccess` calls, the next `CreateTransaction` at every instant strictly after
`now2` finds the deadline before now and reads the remote graph. -/
theorem zero_duration_rereads_later (gapi : GraphAPI G C) (env : Env G C)
    (tx : Transaction G C) (_hzero : gapi.options.AntiEntropyDuration = 0)
    (hpast : gapi.currentGraphStaleAfter ≤ env.now1) (hclock : env.now1 ≤ env.now2)
    (hok : (gapi.CreateTransaction env).ret = .ok tx)
    (gs : List (Option G)) (env2 : Env G C) (hlater : env.now2 < env2.now1) :
    (gs.foldl (fun s g => tx.onSuccess g s)
        (gapi.CreateTransaction env).gapi).currentGraphStaleAfter < env2.now1 ∧
    remoteReads
      ((gs.foldl (fun s g => tx.onSuccess g s)
        (gapi.CreateTransaction env).gapi).CreateTransaction env2) = 1 := by
  have hlt : (gs.foldl (fun s g => tx.onSuccess g s)
      (gapi.CreateTransaction env).gapi).currentGraphStaleAfter < env2.now1 := by
    rw [(createTransaction_callbacks gapi env tx hok).2, foldl_onSuccess_deadline]
    by_cases hm : mustRead gapi env.now1
    · rw [(createTransaction_deadline gapi env tx hok).1 hm]
      exact hlater
    · rw [(createTransaction_deadline gapi env tx hok).2 hm]
      exact lt_of_le_of_lt (le_trans hpast hclock) hlater
  exact ⟨hlt, remoteReads_of_mustRead _ _ (Or.inr hlt)⟩

/-- C6, amended, at a new session: transaction at instant 5, two `onSuccess`
calls, next transaction at instant 6. -/
theorem zero_duration_rereads_later_witness :
    ∃ tx : Transaction Nat Unit,
      ((freshSession 0).CreateTransaction (envAt 5 (.ok (some 7)))).ret = .ok tx ∧
      remoteReads
        (([some 8, some 9].foldl (fun s g => tx.onSuccess g s)
          ((freshSession 0).CreateTransaction (envAt 5 (.ok (some 7)))).gapi).CreateTransaction
            (envAt 6 (.ok (some 10)))) = 1 :=
  ⟨_, rfl,
    (zero_duration_rereads_later (freshSession 0) (envAt 5 (.ok (some 7))) _ rfl
      (by decide) (by decide) rfl [some 8, some 9] (envAt 6 (.ok (some 10))) (by decide)).2⟩

/-- C7. The transaction that `CreateTransaction` returns takes each of its five
policy fields from the option of the same purpose when that option is set,
that is, differs from zero, and takes 30, 1000, 10, five seconds
(5000000000 ns) and 1.01 when the option is zero. For the backoff factor, a
`float64`, zero means that it stands for the number zero, which holds of the
bit patterns of `+0.0` and `-0.0` alone, and 1.01 is the bit pattern
`0x3FF028F5C28F5C29`, the `float64` nearest to 101/100. Each field is the same
for any two sessions that agree on its own option, whatever the other options
are. -/
theorem transaction_policy_from_options (gapi : GraphAPI G C) (env : Env G C)
    (tx : Transaction G C) (h : (gapi.CreateTransaction env).ret = .ok tx) :
    ((gapi.options.Parallelization ≠ 0 → tx.parallelization = gapi.options.Parallelization) ∧
      (gapi.options.Parallelization = 0 → tx.parallelization = 30)) ∧
    ((gapi.options.ChunkSize ≠ 0 → tx.chunkSize = gapi.options.ChunkSize) ∧
      (gapi.options.ChunkSize = 0 → tx.chunkSize = 1000)) ∧
    ((gapi.options.MaxRetries ≠ 0 → tx.retryCount = gapi.options.MaxRetries) ∧
      (gapi.options.MaxRetries = 0 → tx.retryCount = 10)) ∧
    ((gapi.options.RetryDelay ≠ 0 → tx.retryDelay = gapi.options.RetryDelay) ∧
      (gapi.options.RetryDelay = 0 → tx.retryDelay = 5 * 1000000000)) ∧
    ((gapi.options.RetryBackoffFactor.value ≠ some 0 →
        tx.retryBackoffFactor = gapi.options.RetryBackoffFactor) ∧
      (gapi.options.RetryBackoffFactor.value = some 0 →
        tx.retryBackoffFactor = ⟨4607227454796291113⟩) ∧
      (gapi.options.RetryBackoffFactor.value = some 0 ↔
        (gapi.options.RetryBackoffFactor.bits % 2 ^ 64 = 0 ∨
          gapi.options.RetryBackoffFactor.bits % 2 ^ 64 = 2 ^ 63)) ∧
      Float64.value ⟨4607227454796291113⟩ = some (4548635623644201 / 4503599627370496) ∧
      |(4548635623644201 / 4503599627370496 : ℚ) - 101 / 100| ≤ 1 / 2 ^ 53) ∧
    (∀ (gapi2 : GraphAPI G C) (env2 : Env G C) (tx2 : Transaction G C),
      (gapi2.CreateTransaction env2).ret = .ok tx2 →
      (gapi2.options.Parallelization = gapi.options.Parallelization →
        tx2.parallelization = tx.parallelization) ∧
      (gapi2.options.ChunkSize = gapi.options.ChunkSize → tx2.chunkSize = tx.chunkSize) ∧
      (gapi2.options.MaxRetries = gapi.options.MaxRetries → tx2.retryCount = tx.retryCount) ∧
      (gapi2.options.RetryDelay = gapi.options.RetryDelay → tx2.retryDelay = tx.retryDelay) ∧
      (gapi2.options.RetryBackoffFactor = gapi.options.RetryBackoffFactor →
        tx2.retryBackoffFactor = tx.retryBackoffFactor)) := by
  obtain ⟨h1, h2, h3, h4, h5⟩ := createTransaction_policy gapi env tx h
  have hbits : gapi.options.RetryBackoffFactor.value = some 0 ↔
      (gapi.options.RetryBackoffFactor.bits % 2 ^ 64 = 0 ∨
        gapi.options.RetryBackoffFactor.bits % 2 ^ 64 = 2 ^ 63) := by
    rw [← eqZero_iff_value]
    simp only [Float64.eqZero, beq_iff_eq]
    omega
  refine ⟨⟨fun hn => ?_, fun hz => ?_⟩, ⟨fun hn => ?_, fun hz => ?_⟩,
    ⟨fun hn => ?_, fun hz => ?_⟩, ⟨fun hn => ?_, fun hz => ?_⟩,
    ⟨fun hn => ?_, fun hz => ?_, hbits, value_of_default_backoff, default_backoff_nearest⟩, ?_⟩
  · rw [h1, if_neg hn]
  · rw [h1, if_pos hz]
  · rw [h2, if_neg hn]
  · rw [h2, if_pos hz]
  · rw [h3, if_neg hn]
  · rw [h3, if_pos hz]
  · rw [h4, if_neg hn]
  · rw [h4, if_pos hz]; rfl
  · have hf : ¬ gapi.options.RetryBackoffFactor.eqZero = true :=
      fun hc => hn ((eqZero_iff_value _).1 hc)
    rw [h5, if_neg hf]
  · rw [h5, if_pos ((eqZero_iff_value _).2 hz)]
    rfl
  · intro gapi2 env2 tx2 hok2
    obtain ⟨k1, k2, k3, k4, k5⟩ := createTransaction_policy gapi2 env2 tx2 hok2
    refine ⟨fun e => ?_, fun e => ?_, fun e => ?_, fun e => ?_, fun e => ?_⟩
    · rw [k1, h1, e]
    · rw [k2, h2, e]
    · rw [k3, h3, e]
    · rw [k4, h4, e]
    · rw [k5, h5, e]

/-- C7 at three sessions: one sets the parallelism to 4, the retries to 3 and
the backoff factor to `2.0` and leaves the rest at zero; one leaves the backoff
factor at `+0.0`; one sets it to `-0.0`. The last two get `0x3FF028F5C28F5C29`. -/
theorem transaction_policy_from_options_witness :
    (∃ tx : Transaction Nat Unit,
      (({ freshSession 0 with options := mixedOptions }).CreateTransaction
        (envAt 5 (.ok (some 1)))).ret = .ok tx ∧
      tx.parallelization = 4 ∧ tx.chunkSize = 1000 ∧ tx.retryCount = 3 ∧
      tx.retryDelay = 5 * 1000000000 ∧ tx.retryBackoffFactor = ⟨4611686018427387904⟩) ∧
    (∃ tx : Transaction Nat Unit,
      ((freshSession 0).CreateTransaction (envAt 5 (.ok (some 1)))).ret = .ok tx ∧
      tx.parallelization = 30 ∧ tx.retryCount = 10 ∧
      tx.retryBackoffFactor = ⟨4607227454796291113⟩) ∧
    (∃ tx : Transaction Nat Unit,
      (({ freshSession 0 with options := negativeZeroOptions }).CreateTransaction
        (envAt 5 (.ok (some 1)))).ret = .ok tx ∧
      tx.retryBackoffFactor = ⟨4607227454796291113⟩) :=
  ⟨⟨_, rfl,
    (transaction_policy_from_options { freshSession 0 with options := mixedOptions }
      (envAt 5 (.ok (some 1))) _ rfl).1.1 (by decide),
    (transaction_policy_from_options { freshSession 0 with options := mixedOptions }
      (envAt 5 (.ok (some 1))) _ rfl).2.1.2 rfl,
    (transaction_policy_from_options { freshSession 0 with options := mixedOptions }
      (envAt 5 (.ok (some 1))) _ rfl).2.2.1.1 (by decide),
    (transaction_policy_from_options { freshSession 0 with options := mixedOptions }
      (envAt 5 (.ok (some 1))) _ rfl).2.2.2.1.2 rfl,
    (transaction_policy_from_options { freshSession 0 with options := mixedOptions }
      (envAt 5 (.ok (some 1))) _ rfl).2.2.2.2.1.1
        (fun hv => absurd ((eqZero_iff_value _).2 hv) (by decide))⟩,
   ⟨_, rfl,
    (transaction_policy_from_options (freshSession 0) (envAt 5 (.ok (some 1))) _ rfl).1.2 rfl,
    (transaction_policy_from_options (freshSession 0) (envAt 5 (.ok (some 1))) _
      rfl).2.2.1.2 rfl,
    (transaction_policy_from_options (freshSession 0) (envAt 5 (.ok (some 1))) _
      rfl).2.2.2.2.1.2.1 ((eqZero_iff_value _).1 (by decide))⟩,
   ⟨_, rfl,
    (transaction_policy_from_options { freshSession 0 with options := negativeZeroOptions }
      (envAt 5 (.ok (some 1))) _ rfl).2.2.2.2.1.2.1 ((eqZero_iff_value _).1 (by decide))⟩⟩

/-- C9. For an anti-entropy duration `d` of type `int64`, lines 76 to 78 do not
panic exactly when `d = 0` or `d >= 4`. For `d = 0` they are skipped. For
`d >= 4` the argument of `rand.Int63n` is `2 * (d / 4)` without overflow, it
is positive, and the delta lies in `[-(d / 4), d / 4)`. For `1 <= d <= 3` and
for `d < 0` the argument is at most zero and `rand.Int63n` panics. A
`CreateTransaction` that reads a non-nil graph panics in exactly those cases. -/
theorem jitter_panic_free_iff (d : Int) (hd : isInt64 d) (rnd : Nat) :
    (jitter d rnd ≠ .panicked ↔ (d = 0 ∨ 4 ≤ d)) ∧
    (d = 0 → jitter d rnd = .skipped) ∧
    (4 ≤ d → int63nArgument d = 2 * (d / 4) ∧ 0 < int63nArgument d ∧
      int63nArgument d < 2 ^ 63 ∧
      ∃ delta : Int, jitter d rnd = .delta delta ∧ -(d / 4) ≤ delta ∧ delta < d / 4) ∧
    (((1 ≤ d ∧ d ≤ 3) ∨ d < 0) → int63nArgument d ≤ 0 ∧
      Int63n (int63nArgument d) rnd = none ∧ jitter d rnd = .panicked) ∧
    (∀ (gapi : GraphAPI G C) (env : Env G C) (g : G),
      gapi.options.AntiEntropyDuration = d → env.rnd = rnd →
      (gapi.currentGraph = none ∨ gapi.currentGraphStaleAfter < env.now1) →
      env.clientRead gapi.client = .ok (some g) →
      ((gapi.CreateTransaction env).ret = .panicked ↔ ¬ (d = 0 ∨ 4 ≤ d))) := by
  have hskip : d = 0 → jitter d rnd = .skipped := by
    intro h0
    simp [jitter, h0]
  have hbad : ¬ (d = 0 ∨ 4 ≤ d) → jitter d rnd = .panicked := by
    intro hn
    exact jitter_of_lt_four d rnd (fun h => hn (Or.inl h)) (by omega) hd
  have hgood : (d = 0 ∨ 4 ≤ d) → jitter d rnd ≠ .panicked := by
    rintro (h0 | h4)
    · rw [hskip h0]; decide
    · rw [jitter_of_ge_four d rnd h4 hd]; simp
  have hiff : jitter d rnd = .panicked ↔ ¬ (d = 0 ∨ 4 ≤ d) :=
    ⟨fun hp hc => hgood hc hp, hbad⟩
  refine ⟨⟨fun hp => ?_, hgood⟩, hskip, ?_, ?_, ?_⟩
  · by_contra hn
    exact hp (hbad hn)
  · intro h4
    have harg := int63nArgument_of_ge_four d h4 hd
    have hq : 0 < 2 * (d / 4) := by omega
    have h1 := Int.emod_nonneg (rnd : Int) (ne_of_gt hq)
    have h2 := Int.emod_lt_of_pos (rnd : Int) hq
    unfold isInt64 at hd
    exact ⟨harg, by omega, by omega, (rnd : Int) % (2 * (d / 4)) - d / 4,
      jitter_of_ge_four d rnd h4 ⟨hd.1, hd.2⟩, by omega, by omega⟩
  · intro hcase
    have h4 : d < 4 := by omega
    have h0 : d ≠ 0 := by omega
    have harg := int63nArgument_nonpos d hd h4
    exact ⟨harg, by simp [Int63n, harg], jitter_of_lt_four d rnd h0 h4 hd⟩
  · intro gapi env g hopt hrnd hm hr
    rw [createTransaction_of_read_ok gapi env hm (some g) hr, hopt, hrnd]
    by_cases hp : jitter d rnd = .panicked
    · rw [if_pos hp]
      exact ⟨fun _ => hiff.1 hp, fun _ => rfl⟩
    · rw [if_neg hp]
      obtain ⟨tx, htx, -⟩ :=
        buildTransaction_ret_some (afterRead gapi (some g) env.now2) env [.remoteRead] g rfl
      rw [htx]
      exact ⟨fun hc => Outcome.noConfusion hc, fun hc => absurd (hiff.2 hc) hp⟩

/-- C9 at a duration of four seconds and the random number 5: the delta is
`5 - 1000000000`; and at a duration of three nanoseconds: a panic. -/
theorem jitter_panic_free_iff_witness :
    isInt64 4000000000 ∧ jitter 4000000000 5 ≠ .panicked ∧
    (∃ delta : Int, jitter 4000000000 5 = .delta delta ∧
      -(4000000000 / 4) ≤ delta ∧ delta < 4000000000 / 4) ∧
    isInt64 3 ∧ jitter 3 5 = .panicked :=
  ⟨by decide,
    (@jitter_panic_free_iff Nat Unit 4000000000 (by decide) 5).1.2
      (Or.inr (by decide)),
    ((@jitter_panic_free_iff Nat Unit 4000000000 (by decide) 5).2.2.1
      (by decide)).2.2.2,
    by decide,
    ((@jitter_panic_free_iff Nat Unit 3 (by decide) 5).2.2.2.1
      (Or.inl (by decide))).2.2⟩

/-! ## The projection visitor -/

theorem call_queryGraph (k : Constants) (pv : ProjectionVisitor) (c : Callback) :
    (pv.call k c).1.queryGraph = pv.queryGraph := by
  cases c with
  | enterFunctionInvocation name distinct =>
    simp only [ProjectionVisitor.call, ProjectionVisitor.OnEnterFunctionInvocation]
    split <;> rfl
  | onVariable name =>
    simp only [ProjectionVisitor.call, ProjectionVisitor.OnVariable]
    split <;> rfl
  | variablePropertiesPath ps => rfl
  | exitPropertyOrLabelsExpression =>
    simp only [ProjectionVisitor.call, ProjectionVisitor.OnExitPropertyOrLabelsExpression]
    split <;> rfl

theorem call_funcInvoc (k : Constants) (pv : ProjectionVisitor) (c : Callback) :
    (pv.call k c).1.funcInvoc = (pv.funcInvoc || c.isCount) ∧
    (pv.call k c).1.Aggregation = (pv.Aggregation || c.isCount) := by
  cases c with
  | enterFunctionInvocation name distinct =>
    by_cases h : name = "COUNT" <;>
      simp [ProjectionVisitor.call, ProjectionVisitor.OnEnterFunctionInvocation,
        Callback.isCount, h]
  | onVariable name =>
    simp only [ProjectionVisitor.call, ProjectionVisitor.OnVariable, Callback.isCount]
    split <;> simp
  | variablePropertiesPath ps =>
    simp [ProjectionVisitor.call, ProjectionVisitor.OnVariablePropertiesPath, Callback.isCount]
  | exitPropertyOrLabelsExpression =>
    simp only [ProjectionVisitor.call, ProjectionVisitor.OnExitPropertyOrLabelsExpression,
      Callback.isCount]
    split <;> simp

theorem call_keeps_variable (k : Constants) (pv : ProjectionVisitor) (c : Callback)
    (h : c.findsVariable pv.queryGraph = false) :
    (pv.call k c).1.etype = pv.etype ∧ (pv.call k c).1.TypeAndIndex = pv.TypeAndIndex := by
  cases c with
  | enterFunctionInvocation name distinct =>
    simp only [ProjectionVisitor.call, ProjectionVisitor.OnEnterFunctionInvocation]
    split <;> exact ⟨rfl, rfl⟩
  | onVariable name =>
    simp only [Callback.findsVariable] at h
    simp only [ProjectionVisitor.call, ProjectionVisitor.OnVariable]
    cases hf : pv.queryGraph.FindVariable name with
    | error e => exact ⟨rfl, rfl⟩
    | ok t => simp [hf] at h
  | variablePropertiesPath ps => exact ⟨rfl, rfl⟩
  | exitPropertyOrLabelsExpression =>
    simp only [ProjectionVisitor.call, ProjectionVisitor.OnExitPropertyOrLabelsExpression]
    split <;> exact ⟨rfl, rfl⟩

/-- What `OnVariable` records when the lookup succeeds: the switch of lines
55 to 62, and the value found. -/
theorem onVariable_records (k : Constants) (pv : ProjectionVisitor) (name : String)
    (t : TypeAndIndex) (h : pv.queryGraph.FindVariable name = .ok t) :
    (pv.OnVariable k name).1.etype =
      (if t.Typ = k.NodeType then k.NodeExprType
        else if t.Typ = k.RelationType then k.EdgeExprType
        else k.PropertyExprType) ∧
    (pv.OnVariable k name).1.TypeAndIndex = t ∧ (pv.OnVariable k name).2 = none := by
  simp [ProjectionVisitor.OnVariable, h, exprTypeOf]

theorem callAll_queryGraph (k : Constants) (cs : List Callback) (pv : ProjectionVisitor) :
    (pv.callAll k cs).queryGraph = pv.queryGraph := by
  induction cs generalizing pv with
  | nil => rfl
  | cons c cs ih =>
    simp only [ProjectionVisitor.callAll]
    rw [ih, call_queryGraph]

theorem callAll_funcInvoc (k : Constants) (cs : List Callback) (pv : ProjectionVisitor) :
    (pv.callAll k cs).funcInvoc = (pv.funcInvoc || cs.any Callback.isCount) ∧
    (pv.callAll k cs).Aggregation = (pv.Aggregation || cs.any Callback.isCount) := by
  induction cs generalizing pv with
  | nil => simp [ProjectionVisitor.callAll]
  | cons c cs ih =>
    simp only [ProjectionVisitor.callAll, List.any_cons]
    rw [(ih _).1, (ih _).2, (call_funcInvoc k pv c).1, (call_funcInvoc k pv c).2]
    simp [Bool.or_assoc]

theorem callAll_keeps_variable (k : Constants) (cs : List Callback) (pv : ProjectionVisitor)
    (h : ∀ c ∈ cs, c.findsVariable pv.queryGraph = false) :
    (pv.callAll k cs).etype = pv.etype ∧ (pv.callAll k cs).TypeAndIndex = pv.TypeAndIndex := by
  induction cs generalizing pv with
  | nil => exact ⟨rfl, rfl⟩
  | cons c cs ih =>
    simp only [ProjectionVisitor.callAll]
    have hc := call_keeps_variable k pv c (h c (List.mem_cons_self _ _))
    have hrest : ∀ c2 ∈ cs, c2.findsVariable (pv.call k c).1.queryGraph = false := by
      intro c2 hc2
      rw [call_queryGraph]
      exact h c2 (List.mem_cons_of_mem _ hc2)
    rw [(ih _ hrest).1, (ih _ hrest).2]
    exact hc

theorem findsVariable_eq_false (queryGraph : QueryGraph) (c : Callback)
    (h : ∀ n, c = .onVariable n → ∀ t, queryGraph.FindVariable n ≠ .ok t) :
    c.findsVariable queryGraph = false := by
  cases c with
  | onVariable name =>
    simp only [Callback.findsVariable]
    cases hf : queryGraph.FindVariable name with
    | error e => rfl
    | ok t => exact absurd hf (h name rfl t)
  | enterFunctionInvocation name distinct => rfl
  | variablePropertiesPath ps => rfl
  | exitPropertyOrLabelsExpression => rfl

theorem call_properties (k : Constants) (pv : ProjectionVisitor) (c : Callback) :
    (pv.call k c).1.properties = (pendingPath [c]).getD pv.properties := by
  cases c with
  | enterFunctionInvocation name distinct =>
    simp only [ProjectionVisitor.call, ProjectionVisitor.OnEnterFunctionInvocation, pendingPath]
    split <;> rfl
  | onVariable name =>
    simp only [ProjectionVisitor.call, ProjectionVisitor.OnVariable, pendingPath]
    split <;> rfl
  | variablePropertiesPath ps => rfl
  | exitPropertyOrLabelsExpression => rfl

theorem callAll_properties (k : Constants) (cs : List Callback) (pv : ProjectionVisitor) :
    (pv.callAll k cs).properties = (pendingPath cs).getD pv.properties := by
  induction cs generalizing pv with
  | nil => rfl
  | cons c cs ih =>
    simp only [ProjectionVisitor.callAll]
    rw [ih, call_properties]
    simp only [pendingPath]
    cases pendingPath cs <;> rfl

theorem callAll_append (k : Constants) (cs cs2 : List Callback) (pv : ProjectionVisitor) :
    pv.callAll k (cs ++ cs2) = (pv.callAll k cs).callAll k cs2 := by
  induction cs generalizing pv with
  | nil => rfl
  | cons c cs ih =>
    simp only [List.cons_append, ProjectionVisitor.callAll]
    exact ih _

theorem any_isCount_iff (cs : List Callback) :
    cs.any Callback.isCount = true ↔
      ∃ distinct, Callback.enterFunctionInvocation "COUNT" distinct ∈ cs := by
  rw [List.any_eq_true]
  constructor
  · rintro ⟨c, hc, hcount⟩
    cases c with
    | enterFunctionInvocation name distinct =>
      simp only [Callback.isCount, decide_eq_true_eq] at hcount
      subst hcount
      exact ⟨distinct, hc⟩
    | onVariable name => simp [Callback.isCount] at hcount
    | variablePropertiesPath ps => simp [Callback.isCount] at hcount
    | exitPropertyOrLabelsExpression => simp [Callback.isCount] at hcount
  · rintro ⟨distinct, h⟩
    exact ⟨_, h, by simp [Callback.isCount]⟩

theorem onExit_expressionType (k : Constants) (pv : ProjectionVisitor) :
    (pv.OnExitPropertyOrLabelsExpression k).2 = none ∧
    (pv.OnExitPropertyOrLabelsExpression k).1.properties = [] ∧
    ((pv.properties ≠ [] ∨ pv.funcInvoc = true) →
      (pv.OnExitPropertyOrLabelsExpression k).1.ExpressionType = k.PropertyExprType) ∧
    (¬ (pv.properties ≠ [] ∨ pv.funcInvoc = true) →
      (pv.OnExitPropertyOrLabelsExpression k).1.ExpressionType = pv.etype) := by
  have hlen : pv.properties.length > 0 ↔ pv.properties ≠ [] := List.length_pos
  refine ⟨rfl, rfl, fun h => ?_, fun h => ?_⟩
  · have hc : (decide (pv.properties.length > 0) || pv.funcInvoc) = true := by
      rcases h with h | h
      · simp [hlen.2 h]
      · simp [h]
    simp [ProjectionVisitor.OnExitPropertyOrLabelsExpression, hc]
  · have hc : ¬ (decide (pv.properties.length > 0) || pv.funcInvoc) = true := by
      intro hc
      rw [Bool.or_eq_true, decide_eq_true_eq] at hc
      exact h (hc.imp hlen.1 id)
    simp only [ProjectionVisitor.OnExitPropertyOrLabelsExpression, hc]
    rfl

/-- C10. For the visitor that `NewProjectionVisitor` builds and every sequence
of callbacks on it: `funcInvoc` and `Aggregation` are true exactly when an
`OnEnterFunctionInvocation("COUNT", _)` is in the sequence, and stay true under
any further callbacks. The kind in `etype` is the one recorded by the last
`OnVariable` whose lookup succeeded: `NodeExprType` for a variable of kind
`NodeType`, `EdgeExprType` for one of kind `RelationType`, `PropertyExprType`
for one of any other kind; it is the zero value when no lookup succeeded.
`OnExitPropertyOrLabelsExpression` then returns no error, clears the pending
properties path, takes the branch that sets `ExpressionType` to
`PropertyExprType` exactly when the pending path is non-empty or a COUNT was
entered, and copies the recorded kind otherwise, so that `ExpressionType` is
`PropertyExprType` exactly when one of the two holds or the recorded kind is
`PropertyExprType` itself. `OnEnterFunctionInvocation` with a name other than
"COUNT" returns an error and leaves the visitor as it was. -/
theorem projection_visitor_expression_type (k : Constants) (queryGraph : QueryGraph)
    (cs : List Callback) :
    ((visited k queryGraph cs).funcInvoc = true ↔
      ∃ distinct, Callback.enterFunctionInvocation "COUNT" distinct ∈ cs) ∧
    ((visited k queryGraph cs).Aggregation = true ↔
      ∃ distinct, Callback.enterFunctionInvocation "COUNT" distinct ∈ cs) ∧
    (∀ cs2 : List Callback,
      ((visited k queryGraph cs).funcInvoc = true →
        (visited k queryGraph (cs ++ cs2)).funcInvoc = true) ∧
      ((visited k queryGraph cs).Aggregation = true →
        (visited k queryGraph (cs ++ cs2)).Aggregation = true)) ∧
    (∀ (pre post : List Callback) (name : String) (t : TypeAndIndex),
      cs = pre ++ Callback.onVariable name :: post →
      queryGraph.FindVariable name = .ok t →
      (∀ n, Callback.onVariable n ∈ post → ∀ t2, queryGraph.FindVariable n ≠ .ok t2) →
      (t.Typ = k.NodeType → (visited k queryGraph cs).etype = k.NodeExprType) ∧
      (t.Typ ≠ k.NodeType → t.Typ = k.RelationType →
        (visited k queryGraph cs).etype = k.EdgeExprType) ∧
      (t.Typ ≠ k.NodeType → t.Typ ≠ k.RelationType →
        (visited k queryGraph cs).etype = k.PropertyExprType) ∧
      (visited k queryGraph cs).TypeAndIndex = t) ∧
    ((∀ n, Callback.onVariable n ∈ cs → ∀ t, queryGraph.FindVariable n ≠ .ok t) →
      (visited k queryGraph cs).etype = 0) ∧
    (visited k queryGraph cs).properties = (pendingPath cs).getD [] ∧
    ((visited k queryGraph cs).OnExitPropertyOrLabelsExpression k).2 = none ∧
    ((visited k queryGraph cs).OnExitPropertyOrLabelsExpression k).1.properties = [] ∧
    (((visited k queryGraph cs).properties ≠ [] ∨
        ∃ distinct, Callback.enterFunctionInvocation "COUNT" distinct ∈ cs) →
      ((visited k queryGraph cs).OnExitPropertyOrLabelsExpression k).1.ExpressionType
        = k.PropertyExprType) ∧
    (¬ ((visited k queryGraph cs).properties ≠ [] ∨
        ∃ distinct, Callback.enterFunctionInvocation "COUNT" distinct ∈ cs) →
      ((visited k queryGraph cs).OnExitPropertyOrLabelsExpression k).1.ExpressionType
        = (visited k queryGraph cs).etype) ∧
    (((visited k queryGraph cs).OnExitPropertyOrLabelsExpression k).1.ExpressionType
        = k.PropertyExprType ↔
      ((visited k queryGraph cs).properties ≠ [] ∨
        (∃ distinct, Callback.enterFunctionInvocation "COUNT" distinct ∈ cs) ∨
        (visited k queryGraph cs).etype = k.PropertyExprType)) ∧
    (∀ (name : String) (distinct : Bool), name ≠ "COUNT" →
      (visited k queryGraph cs).OnEnterFunctionInvocation name distinct
        = (visited k queryGraph cs,
            some (.leaf ("Function " ++ name ++ " is not supported")))) := by
  have hf : (visited k queryGraph cs).funcInvoc = true ↔
      ∃ distinct, Callback.enterFunctionInvocation "COUNT" distinct ∈ cs := by
    rw [← any_isCount_iff]
    simp [visited, (callAll_funcInvoc k cs _).1, NewProjectionVisitor]
  have ha : (visited k queryGraph cs).Aggregation = true ↔
      ∃ distinct, Callback.enterFunctionInvocation "COUNT" distinct ∈ cs := by
    rw [← any_isCount_iff]
    simp [visited, (callAll_funcInvoc k cs _).2, NewProjectionVisitor]
  have hp : (visited k queryGraph cs).properties = (pendingPath cs).getD [] := by
    simp only [visited, callAll_properties]
    rfl
  obtain ⟨x1, x2, x3, x4⟩ := onExit_expressionType k (visited k queryGraph cs)
  have hcond : ((visited k queryGraph cs).properties ≠ [] ∨
      (visited k queryGraph cs).funcInvoc = true) ↔
      ((visited k queryGraph cs).properties ≠ [] ∨
        ∃ distinct, Callback.enterFunctionInvocation "COUNT" distinct ∈ cs) := by
    rw [hf]
  refine ⟨hf, ha, ?_, ?_, ?_, hp, x1, x2, fun h => x3 (hcond.2 h),
    fun h => x4 (fun hc => h (hcond.1 hc)), ?_, ?_⟩
  · intro cs2
    constructor
    · intro h
      simp only [visited, callAll_append]
      rw [(callAll_funcInvoc k cs2 _).1]
      simp only [visited] at h
      simp [h]
    · intro h
      simp only [visited, callAll_append]
      rw [(callAll_funcInvoc k cs2 _).2]
      simp only [visited] at h
      simp [h]
  · intro pre post name t hcs hfound hpost
    subst hcs
    have hq : ((NewProjectionVisitor queryGraph).callAll k pre).queryGraph = queryGraph :=
      callAll_queryGraph k pre _
    have hrec := onVariable_records k ((NewProjectionVisitor queryGraph).callAll k pre) name t
      (by rw [hq]; exact hfound)
    have hkeep := callAll_keeps_variable k post
      ((((NewProjectionVisitor queryGraph).callAll k pre).call k (.onVariable name)).1)
      (by
        intro c hc
        rw [call_queryGraph, hq]
        exact findsVariable_eq_false queryGraph c (fun n hn => hpost n (hn ▸ hc)))
    have hv : visited k queryGraph (pre ++ Callback.onVariable name :: post) =
        ((((NewProjectionVisitor queryGraph).callAll k pre).call k
          (.onVariable name)).1).callAll k post := by
      simp only [visited, callAll_append, ProjectionVisitor.callAll]
    rw [hv, hkeep.1, hkeep.2]
    simp only [ProjectionVisitor.call]
    rw [hrec.1, hrec.2.1]
    refine ⟨fun h1 => ?_, fun h1 h2 => ?_, fun h1 h2 => ?_, rfl⟩
    · rw [if_pos h1]
    · rw [if_neg h1, if_pos h2]
    · rw [if_neg h1, if_neg h2]
  · intro hnone
    have hkeep := callAll_keeps_variable k cs (NewProjectionVisitor queryGraph)
      (fun c hc => findsVariable_eq_false queryGraph c (fun n hn => hnone n (hn ▸ hc)))
    simp only [visited]
    rw [hkeep.1]
    rfl
  · constructor
    · intro h
      by_cases hc : (visited k queryGraph cs).properties ≠ [] ∨
          ∃ distinct, Callback.enterFunctionInvocation "COUNT" distinct ∈ cs
      · rcases hc with hc | hc
        · exact Or.inl hc
        · exact Or.inr (Or.inl hc)
      · rw [x4 (fun hc2 => hc (hcond.1 hc2))] at h
        exact Or.inr (Or.inr h)
    · intro h
      by_cases hc : (visited k queryGraph cs).properties ≠ [] ∨
          ∃ distinct, Callback.enterFunctionInvocation "COUNT" distinct ∈ cs
      · exact x3 (hcond.2 hc)
      · rw [x4 (fun hc2 => hc (hcond.1 hc2))]
        rcases h with h | h | h
        · exact absurd (Or.inl h) hc
        · exact absurd (Or.inr h) hc
        · exact h
  · intro name distinct hne
    simp [ProjectionVisitor.OnEnterFunctionInvocation, hne]

/-- C10 on three sequences, with 10 and 11 for the kinds of variable and 20, 21
and 22 for the kinds of expression: after `n` then `r` the recorded kind is 21,
that of the relation `r`, the last variable; after `p`, of a third kind, it
is 22; after a sequence whose only lookup fails it is the zero value. -/
theorem projection_visitor_expression_type_witness :
    (visited sampleConstants smallQueryGraph [.onVariable "n", .onVariable "r"]).etype = 21 ∧
    (visited sampleConstants smallQueryGraph [.onVariable "p"]).etype = 22 ∧
    (visited sampleConstants smallQueryGraph [.onVariable "x"]).etype = 0 :=
  ⟨((projection_visitor_expression_type sampleConstants smallQueryGraph
      [.onVariable "n", .onVariable "r"]).2.2.2.1 [.onVariable "n"] [] "r" ⟨11, 1⟩ rfl rfl
        (fun _ hn => absurd hn (List.not_mem_nil _))).2.1 (by decide) rfl,
    ((projection_visitor_expression_type sampleConstants smallQueryGraph
      [.onVariable "p"]).2.2.2.1 [] [] "p" ⟨12, 2⟩ rfl rfl
        (fun _ hn => absurd hn (List.not_mem_nil _))).2.2.1 (by decide) (by decide),
    (projection_visitor_expression_type sampleConstants smallQueryGraph
      [.onVariable "x"]).2.2.2.2.1 (by
        intro n hn t
        rw [List.mem_singleton] at hn
        cases hn
        intro hfound
        simp [smallQueryGraph] at hfound)⟩

/-- The visitor on `COUNT(n)` followed by a bare `r`: the kind stays
`PropertyExprType` (22) for `r` as well, since `funcInvoc` is not reset; on a
bare `r` alone it is `EdgeExprType` (21), on a bare `n` `NodeExprType` (20),
and on `n.name` `PropertyExprType`. -/
theorem projection_visitor_count_then_relation :
    ((visited sampleConstants smallQueryGraph
        [.enterFunctionInvocation "COUNT" false, .onVariable "n",
          .exitPropertyOrLabelsExpression, .onVariable "r"]
      ).OnExitPropertyOrLabelsExpression sampleConstants).1.ExpressionType = 22 ∧
    ((visited sampleConstants smallQueryGraph [.onVariable "r"]
      ).OnExitPropertyOrLabelsExpression sampleConstants).1.ExpressionType = 21 ∧
    ((visited sampleConstants smallQueryGraph [.onVariable "n"]
      ).OnExitPropertyOrLabelsExpression sampleConstants).1.ExpressionType = 20 ∧
    ((visited sampleConstants smallQueryGraph [.onVariable "n", .variablePropertiesPath ["name"]]
      ).OnExitPropertyOrLabelsExpression sampleConstants).1.ExpressionType = 22 := by
  refine ⟨?_, ?_, ?_, ?_⟩ <;> decide

end GoGraphKB
